import Mathlib

/-!
Verification of the tool-use chat example in
`04-tool-use/code_samples/04-semantic-kernel-tool.ipynb` and
`04-tool-use/interactive-chat-explanation.md`.

The code under study streams agent responses, buffers streamed
function-call fragments, reconstructs call/result pairs, and renders one
HTML block per user turn.  We embed the per-turn item processing, the HTML
rendering, the `process_user_input` turn function, the `on_submit` input
handler, and the `DestinationsPlugin` lookup functions as Lean functions,
and prove the behavioural claims about them.

External collaborators are modelled abstractly:
* the agent stream is an input list of `Response` values (each carrying the
  framework's updated `thread` and a list of content items), since the
  framework's behaviour is outside the repository;
* Python's `json.loads` followed by `json.dumps` is an abstract parameter
  `jsonRoundtrip : String → Option String`, where `none` means the
  `try` block raised (any exception, caught by the bare `except`), and
  `some t` means re-serialisation succeeded producing `t`.  Theorems are
  proved for every such function, so they hold of the real `json` module.
-/

namespace SKTool

/-- One streamed content item, mirroring the `isinstance` chain of the
source.  `function_name` is `Option String` because the attribute may be
`None` (and the code tests its Python truthiness, which is also false for
`""`); `arguments` is `some a` when `item.arguments` is a `str` (the
`isinstance(item.arguments, str)` test) and `none` otherwise; `text` may be
`None` or a string, and the code tests its truthiness.  `other` stands for
any item of a class not matched by the chain. -/
inductive Item where
  | functionCall (function_name : Option String) (arguments : Option String)
  | functionResult (result : String)
  | streamingText (text : Option String)
  | other
  deriving Repr, DecidableEq

/-- Python's `str.strip()` with no argument: remove leading and trailing
whitespace characters.  Defined by structural recursion on the character
list so that it evaluates on concrete inputs. -/
def pyStrip (s : String) : String :=
  ⟨((s.data.dropWhile Char.isWhitespace).reverse.dropWhile Char.isWhitespace).reverse⟩

/-- The per-turn accumulators of `process_user_input` / `main`:
`full_response`, `function_calls`, `current_function_name`,
`argument_buffer`, in source order. -/
structure TurnState where
  full_response : List String
  function_calls : List String
  current_function_name : Option String
  argument_buffer : String
  deriving Repr, DecidableEq

/-- The initial values the source gives the accumulators at the start of
each turn: `[]`, `[]`, `None`, `""`. -/
def TurnState.init : TurnState :=
  { full_response := []
    function_calls := []
    current_function_name := none
    argument_buffer := "" }

/-- The body of `for item in content_items`, translated clause by clause
from the source:

* `FunctionCallContent`: `if item.function_name:` store it; then
  `if isinstance(item.arguments, str):` append to `argument_buffer`;
* `FunctionResultContent`: `if current_function_name:` strip the buffer,
  try `json.loads`/`json.dumps` (failure caught, raw stripped string
  kept), append the `Calling function: ...` line and reset name and
  buffer; then always append the `Function Result` line;
* `StreamingTextContent`: append `item.text` when truthy;
* anything else: no effect.

`jsonRoundtrip` abstracts `json.dumps(json.loads ·)` with `none` for a
raised (and caught) exception. -/
def processItem (jsonRoundtrip : String → Option String) (st : TurnState) :
    Item → TurnState
  | .functionCall fname args =>
      let st1 :=
        match fname with
        | some n => if n.isEmpty then st else { st with current_function_name := some n }
        | none => st
      match args with
      | some a => { st1 with argument_buffer := st1.argument_buffer ++ a }
      | none => st1
  | .functionResult r =>
      let st1 :=
        match st.current_function_name with
        | some n =>
            if n.isEmpty then st
            else
              let stripped := pyStrip st.argument_buffer
              let formatted_args := (jsonRoundtrip stripped).getD stripped
              { st with
                  function_calls := st.function_calls ++
                    ["Calling function: " ++ n ++ "(" ++ formatted_args ++ ")"]
                  current_function_name := none
                  argument_buffer := "" }
        | none => st
      { st1 with function_calls := st1.function_calls ++ ["\nFunction Result:\n\n" ++ r] }
  | .streamingText t =>
      match t with
      | some s => if s.isEmpty then st else { st with full_response := st.full_response ++ [s] }
      | none => st
  | .other => st

/-- Processing `content_items = list(response.items)` in order. -/
def runItems (jsonRoundtrip : String → Option String) (st : TurnState)
    (items : List Item) : TurnState :=
  items.foldl (processItem jsonRoundtrip) st

/-- One streamed `response` object from `agent.invoke_stream`, as the turn
loop consumes it: its `thread` and its `items`.  The thread type `Th` is
abstract (the framework's `ChatHistoryAgentThread`). -/
structure Response (Th : Type) where
  thread : Th
  items : List Item

/-- The `TurnState` reached by the `async for response in ...` loop:
each response's items are folded into the accumulators, which start from
their fresh per-turn initial values. -/
def turnState (jsonRoundtrip : String → Option String) {Th : Type}
    (responses : List (Response Th)) : TurnState :=
  responses.foldl (fun st r => runItems jsonRoundtrip st r.items) TurnState.init

/-- The user-message block of `html_output`. -/
def userDiv (user_input : String) : String :=
  "<div style='margin-bottom:10px'>" ++
    "<div style='font-weight:bold'>User:</div>" ++
    "<div style='margin-left:20px'>" ++ user_input ++ "</div></div>"

/-- The collapsible function-calls block, added only `if function_calls:`;
`chr(10).join(function_calls)` is `String.intercalate "\n"`. -/
def functionCallsDiv (function_calls : List String) : String :=
  "<div style='margin-bottom:10px'>" ++
    "<details>" ++
    "<summary style='cursor:pointer; font-weight:bold; color:#0066cc;'>Function Calls (click to expand)</summary>" ++
    "<div style='margin:10px; padding:10px; background-color:#f8f8f8; " ++
    "border:1px solid #ddd; border-radius:4px; white-space:pre-wrap; font-size:14px; color:#333;'>" ++
    String.intercalate "\n" function_calls ++
    "</div></details></div>"

/-- The agent-response block closing `html_output`;
`''.join(full_response)` is `String.join`, and the block ends with the
horizontal rule `<hr>`. -/
def agentDiv (agent_name : String) (full_response : List String) : String :=
  "<div style='margin-bottom:20px'>" ++
    "<div style='font-weight:bold'>" ++ agent_name ++ ":</div>" ++
    "<div style='margin-left:20px; white-space:pre-wrap'>" ++
    String.join full_response ++ "</div></div><hr>"

/-- The interactive cell's mutable surroundings: the global `thread`
(initially `None`), the `output_area` widget modelled as the list of HTML
strings passed to `append_display_data`, and `input_box.value`. -/
structure ChatState (Th : Type) where
  thread : Option Th
  output_area : List String
  input_box : String
  deriving Repr, DecidableEq

/-- `process_user_input`, given the stream the framework produces for this
turn: builds `html_output` from the user block, folds every response
(assigning `thread = response.thread` each time and processing its items),
appends the function-calls block `if function_calls:`, closes with the
agent block, and appends the single resulting HTML string to
`output_area`. -/
def process_user_input (jsonRoundtrip : String → Option String) {Th : Type}
    (agent_name user_input : String) (responses : List (Response Th))
    (cs : ChatState Th) : ChatState Th :=
  let html_output := userDiv user_input
  let acc := responses.foldl
    (fun (acc : Option Th × TurnState) r =>
      (some r.thread, runItems jsonRoundtrip acc.2 r.items))
    (cs.thread, TurnState.init)
  let st := acc.2
  let html_output :=
    if !st.function_calls.isEmpty then html_output ++ functionCallsDiv st.function_calls
    else html_output
  let html_output := html_output ++ agentDiv agent_name st.full_response
  { thread := acc.1
    output_area := cs.output_area ++ [html_output]
    input_box := cs.input_box }

/-- `on_submit`: reads `user_input = change.value` (the input box's
value), and `if user_input.strip():` creates one task running
`process_user_input(user_input)` and clears the box; otherwise does
nothing.  The first component lists the inputs for which a task was
created this call. -/
def on_submit {Th : Type} (cs : ChatState Th) : List String × ChatState Th :=
  let user_input := cs.input_box
  if !(pyStrip user_input).isEmpty then
    ([user_input], { cs with input_box := "" })
  else
    ([], cs)

/-! The vacation-destinations plugin of the notebook. -/

namespace DestinationsPlugin

/-- `get_destinations`: the fixed destinations string (a Python
triple-quoted literal, leading newline and indentation included). -/
def get_destinations (_self : Unit) : String :=
  "\n        Barcelona, Spain\n        Paris, France\n        Berlin, Germany\n        Tokyo, Japan\n        New York, USA\n        "

/-- `get_availability`: takes a destination argument but returns the fixed
availability string regardless. -/
def get_availability (_self : Unit) (_destination : String) : String :=
  "\n        Barcelona - Unavailable\n        Paris - Available\n        Berlin - Available\n        Tokyo - Unavailable\n        New York - Available\n        "

/-- The methods of the class carrying the `@kernel_function` decorator, in
source order: exactly these are exposed to the agent as tools. -/
def kernelFunctionNames : List String :=
  ["get_destinations", "get_availability"]

end DestinationsPlugin

/-- `pat` occurs as a contiguous substring of `s`. -/
def OccursIn (pat s : String) : Prop :=
  ∃ a b : String, s = a ++ pat ++ b

/-- Is the item a `FunctionResultContent`? -/
def isFunctionResult : Item → Bool
  | .functionResult _ => true
  | _ => false

/-- Concatenation, in stream order, of the string-typed `arguments` fields
of the `FunctionCallContent` items of a list; items whose `arguments` is
not a string, and items of other kinds, contribute nothing. -/
def streamedArgs : List Item → String
  | [] => ""
  | Item.functionCall _ (some a) :: rest => a ++ streamedArgs rest
  | _ :: rest => streamedArgs rest

/-- The `text` of every `StreamingTextContent` item whose text is truthy
(present and non-empty), in stream order. -/
def textsOf : List Item → List String
  | [] => []
  | Item.streamingText (some s) :: rest =>
      if s.isEmpty then textsOf rest else s :: textsOf rest
  | _ :: rest => textsOf rest

lemma textsOf_cons (it : Item) (rest : List Item) :
    textsOf (it :: rest) = textsOf [it] ++ textsOf rest := by
  cases it with
  | functionCall f a => simp [textsOf]
  | functionResult r => simp [textsOf]
  | streamingText t =>
      cases t with
      | none => simp [textsOf]
      | some s =>
          by_cases h : s.isEmpty
          · simp [textsOf, h]
          · simp [textsOf, h]
  | other => simp [textsOf]

lemma textsOf_append (l₁ l₂ : List Item) :
    textsOf (l₁ ++ l₂) = textsOf l₁ ++ textsOf l₂ := by
  induction l₁ with
  | nil => simp [textsOf]
  | cons it rest ih =>
      rw [List.cons_append, textsOf_cons, textsOf_cons it rest, List.append_assoc, ih]

lemma streamedArgs_cons (it : Item) (rest : List Item) :
    streamedArgs (it :: rest) = streamedArgs [it] ++ streamedArgs rest := by
  cases it with
  | functionCall f a =>
      cases a with
      | none => simp [streamedArgs]
      | some s => simp [streamedArgs, String.append_assoc]
  | functionResult r => simp [streamedArgs]
  | streamingText t => simp [streamedArgs]
  | other => simp [streamedArgs]

lemma full_response_processItem (jr : String → Option String) (st : TurnState)
    (it : Item) :
    (processItem jr st it).full_response = st.full_response ++ textsOf [it] := by
  cases it with
  | functionCall f a =>
      cases f <;> cases a <;> simp [processItem, textsOf] <;> split <;> simp
  | functionResult r =>
      cases h : st.current_function_name with
      | none => simp [processItem, textsOf, h]
      | some n =>
          by_cases hn : n.isEmpty
          · simp [processItem, textsOf, h, hn]
          · simp [processItem, textsOf, h, hn]
  | streamingText t =>
      cases t with
      | none => simp [processItem, textsOf]
      | some s =>
          by_cases h : s.isEmpty
          · simp [processItem, textsOf, h]
          · simp [processItem, textsOf, h]
  | other => simp [processItem, textsOf]

lemma full_response_runItems (jr : String → Option String) :
    ∀ (items : List Item) (st : TurnState),
      (runItems jr st items).full_response = st.full_response ++ textsOf items := by
  intro items
  induction items with
  | nil => intro st; simp [runItems, textsOf]
  | cons it rest ih =>
      intro st
      have h1 : runItems jr st (it :: rest) = runItems jr (processItem jr st it) rest := rfl
      rw [h1, ih, full_response_processItem, textsOf_cons it rest]
      simp [List.append_assoc]

lemma argument_buffer_processItem (jr : String → Option String) (st : TurnState)
    (it : Item) (h : isFunctionResult it = false) :
    (processItem jr st it).argument_buffer = st.argument_buffer ++ streamedArgs [it] := by
  cases it with
  | functionCall f a =>
      cases f <;> cases a <;> simp [processItem, streamedArgs] <;> split <;> simp
  | functionResult r => simp [isFunctionResult] at h
  | streamingText t =>
      cases t with
      | none => simp [processItem, streamedArgs]
      | some s => by_cases hs : s.isEmpty <;> simp [processItem, streamedArgs, hs]
  | other => simp [processItem, streamedArgs]

lemma argument_buffer_runItems (jr : String → Option String) :
    ∀ (items : List Item) (st : TurnState),
      (∀ it ∈ items, isFunctionResult it = false) →
      (runItems jr st items).argument_buffer = st.argument_buffer ++ streamedArgs items := by
  intro items
  induction items with
  | nil => intro st _; simp [runItems, streamedArgs]
  | cons it rest ih =>
      intro st h
      have h1 : runItems jr st (it :: rest) = runItems jr (processItem jr st it) rest := rfl
      rw [h1, ih _ (fun x hx => h x (List.mem_cons_of_mem _ hx)),
        argument_buffer_processItem jr st it (h it (List.mem_cons_self _ _)),
        streamedArgs_cons it rest]
      simp [String.append_assoc]

lemma foldl_pair_snd {Th : Type} (jr : String → Option String) :
    ∀ (responses : List (Response Th)) (p : Option Th × TurnState),
      (responses.foldl
          (fun (acc : Option Th × TurnState) r =>
            (some r.thread, runItems jr acc.2 r.items)) p).2 =
        responses.foldl (fun st r => runItems jr st r.items) p.2 := by
  intro responses
  induction responses with
  | nil => intro p; rfl
  | cons r rest ih => intro p; exact ih (some r.thread, runItems jr p.2 r.items)

lemma foldl_pair_fst {Th : Type} (jr : String → Option String) :
    ∀ (responses : List (Response Th)) (p : Option Th × TurnState),
      (responses.foldl
          (fun (acc : Option Th × TurnState) r =>
            (some r.thread, runItems jr acc.2 r.items)) p).1 =
        responses.foldl (fun _ r => some r.thread) p.1 := by
  intro responses
  induction responses with
  | nil => intro p; rfl
  | cons r rest ih => intro p; exact ih (some r.thread, runItems jr p.2 r.items)

lemma foldl_thread_getLast {Th : Type} :
    ∀ (rs : List (Response Th)) (th : Option Th),
      rs.foldl (fun _ r => some r.thread) th =
        (match rs.getLast? with
         | some r => some r.thread
         | none => th) := by
  intro rs
  induction rs with
  | nil => intro th; rfl
  | cons r rest ih =>
      intro th
      cases rest with
      | nil => rfl
      | cons b t =>
          rw [List.foldl_cons, ih (some r.thread), List.getLast?_cons_cons]
          cases hlast : (b :: t).getLast? with
          | some r2 => rfl
          | none => simp at hlast

/-- `process_user_input` in closed form: the final thread is the fold of
`thread = response.thread` over the stream, the output area gains exactly
the one rendered block, the input box is untouched. -/
lemma process_user_input_eq {Th : Type} (jr : String → Option String)
    (an ui : String) (rs : List (Response Th)) (cs : ChatState Th) :
    process_user_input jr an ui rs cs =
      { thread := rs.foldl (fun _ r => some r.thread) cs.thread
        output_area := cs.output_area ++
          [userDiv ui ++
            (if !(turnState jr rs).function_calls.isEmpty then
              functionCallsDiv (turnState jr rs).function_calls
             else "") ++
            agentDiv an (turnState jr rs).full_response]
        input_box := cs.input_box } := by
  unfold process_user_input turnState
  dsimp only
  rw [foldl_pair_fst, foldl_pair_snd]
  by_cases h :
      ((rs.foldl (fun st r => runItems jr st r.items) TurnState.init).function_calls).isEmpty <;>
    simp [h, String.append_assoc]

lemma full_response_foldl_responses {Th : Type} (jr : String → Option String) :
    ∀ (rs : List (Response Th)) (st : TurnState),
      (rs.foldl (fun st r => runItems jr st r.items) st).full_response =
        st.full_response ++ textsOf (rs.flatMap Response.items) := by
  intro rs
  induction rs with
  | nil => intro st; simp [textsOf]
  | cons r rest ih =>
      intro st
      rw [List.foldl_cons, ih, full_response_runItems, List.flatMap_cons, textsOf_append,
        List.append_assoc]

lemma full_response_turnState {Th : Type} (jr : String → Option String)
    (rs : List (Response Th)) :
    (turnState jr rs).full_response = textsOf (rs.flatMap Response.items) := by
  rw [turnState, full_response_foldl_responses]
  rfl

lemma bool_isEmpty_false {s : String} (h : s ≠ "") : s.isEmpty = false := by
  cases hb : s.isEmpty
  · rfl
  · exact absurd ((String.isEmpty_iff s).mp hb) h

/-- Claim C1: when a `FunctionResultContent` item arrives while a function name
is pending, the argument buffer is stripped and put through the JSON
round-trip; for every buffer the round-trip rejects (modelled by
`jsonRoundtrip _ = none`, i.e. `json.loads` raised and the bare `except`
caught it), the raw stripped string is used unchanged, the
`Calling function: <name>(<args>)` entry is still appended (followed by the
function-result entry), and processing completes normally — the embedding
is a total function, reflecting that the turn never raises. -/
theorem claim_C1 (jsonRoundtrip : String → Option String) (st : TurnState)
    (fname result : String)
    (hpend : st.current_function_name = some fname) (hne : fname ≠ "")
    (hrej : jsonRoundtrip (pyStrip st.argument_buffer) = none) :
    processItem jsonRoundtrip st (Item.functionResult result) =
      { st with
          function_calls := st.function_calls ++
            ["Calling function: " ++ fname ++ "(" ++ pyStrip st.argument_buffer ++ ")",
             "\nFunction Result:\n\n" ++ result]
          current_function_name := none
          argument_buffer := "" } := by
  simp [processItem, hpend, bool_isEmpty_false hne, hrej]

/-- Witness for C1 at a concrete state whose buffer the round-trip
rejects. -/
theorem claim_C1_witness :
    ({ full_response := [], function_calls := [], current_function_name := some "f",
       argument_buffer := " not json " } : TurnState).current_function_name = some "f" ∧
    ("f" : String) ≠ "" ∧
    processItem (fun _ => none)
        { full_response := [], function_calls := [], current_function_name := some "f",
          argument_buffer := " not json " }
        (Item.functionResult "ok") =
      { full_response := [],
        function_calls :=
          ["Calling function: " ++ "f" ++ "(" ++ pyStrip " not json " ++ ")",
           "\nFunction Result:\n\n" ++ "ok"],
        current_function_name := none, argument_buffer := "" } :=
  ⟨rfl, by decide,
    claim_C1 (fun _ => none)
      { full_response := [], function_calls := [], current_function_name := some "f",
        argument_buffer := " not json " }
      "f" "ok" rfl (by decide) rfl⟩

/-- Claim C7: when the submitted input's stripped value is non-empty,
`on_submit` creates exactly one task, running `process_user_input` on that
input (the embedding returns the list of spawned inputs), and clears the
input box; `on_submit` itself is a plain synchronous function with no
lock, queue or await between turns. -/
theorem claim_C7 {Th : Type} (cs : ChatState Th) (h : pyStrip cs.input_box ≠ "") :
    (on_submit cs).1 = [cs.input_box] ∧
    (on_submit cs).1.length = 1 ∧
    (on_submit cs).2 = { cs with input_box := "" } := by
  simp [on_submit, bool_isEmpty_false h]

/-- Witness for C7 at the concrete submission `"hi"`. -/
theorem claim_C7_witness :
    pyStrip "hi" ≠ "" ∧
    ((on_submit ({ thread := none, output_area := [], input_box := "hi" } : ChatState Unit)).1 =
        ["hi"] ∧
      (on_submit ({ thread := none, output_area := [], input_box := "hi" } : ChatState Unit)).1.length = 1 ∧
      (on_submit ({ thread := none, output_area := [], input_box := "hi" } : ChatState Unit)).2 =
        { thread := none, output_area := [], input_box := "" }) :=
  ⟨by decide, claim_C7 { thread := none, output_area := [], input_box := "hi" } (by decide)⟩

/-- Claim C8: `get_availability` returns the same string for every pair of
destination arguments — its output carries no information about its
input. -/
theorem claim_C8 (s : Unit) (d1 d2 : String) :
    DestinationsPlugin.get_availability s d1 = DestinationsPlugin.get_availability s d2 := rfl

/-- Claim C9: a `FunctionResultContent` processed while no function name is
pending appends only the function-result line (no `Calling function`
line), and leaves the argument buffer — and every other accumulator —
untouched; the carried buffer is then attached to the next function call
that does complete in the same turn, concatenated before that call's own
streamed arguments. -/
theorem claim_C9 (jsonRoundtrip : String → Option String) (st : TurnState)
    (result : String) (hnone : st.current_function_name = none) :
    processItem jsonRoundtrip st (Item.functionResult result) =
      { st with function_calls := st.function_calls ++ ["\nFunction Result:\n\n" ++ result] } ∧
    ∀ f a r2 : String, f ≠ "" →
      (runItems jsonRoundtrip (processItem jsonRoundtrip st (Item.functionResult result))
          [Item.functionCall (some f) (some a), Item.functionResult r2]).function_calls =
        (st.function_calls ++ ["\nFunction Result:\n\n" ++ result]) ++
          ["Calling function: " ++ f ++ "(" ++
              ((jsonRoundtrip (pyStrip (st.argument_buffer ++ a))).getD
                (pyStrip (st.argument_buffer ++ a))) ++ ")",
           "\nFunction Result:\n\n" ++ r2] := by
  refine ⟨by simp [processItem, hnone], ?_⟩
  intro f a r2 hf
  simp [runItems, processItem, hnone, bool_isEmpty_false hf]

/-- Witness for C9: buffer `"xy"` survives a bare result and is attached,
together with the later fragment `"z"`, to the next completed call. -/
theorem claim_C9_witness :
    ({ full_response := [], function_calls := [], current_function_name := none,
       argument_buffer := "xy" } : TurnState).current_function_name = none ∧
    ("g" : String) ≠ "" ∧
    (runItems (fun _ => none)
        (processItem (fun _ => none)
          { full_response := [], function_calls := [], current_function_name := none,
            argument_buffer := "xy" }
          (Item.functionResult "res"))
        [Item.functionCall (some "g") (some "z"), Item.functionResult "r2"]).function_calls =
      ([] ++ ["\nFunction Result:\n\n" ++ "res"]) ++
        ["Calling function: " ++ "g" ++ "(" ++ pyStrip ("xy" ++ "z") ++ ")",
         "\nFunction Result:\n\n" ++ "r2"] :=
  ⟨rfl, by decide,
    (claim_C9 (fun _ => none)
        { full_response := [], function_calls := [], current_function_name := none,
          argument_buffer := "xy" }
        "res" rfl).2 "g" "z" "r2" (by decide)⟩

/-- Claim C10: a submission whose stripped value is empty does nothing: no task
is created, and the chat state — output area, thread, and in particular
the input box, which is not cleared — is returned unchanged. -/
theorem claim_C10 {Th : Type} (cs : ChatState Th) (h : pyStrip cs.input_box = "") :
    on_submit cs = ([], cs) := by
  simp [on_submit, h, String.isEmpty]

/-- Claim C2: starting from a fresh (or just-reset) buffer, the argument
buffer after a stretch of the stream containing no function-result item is
exactly the concatenation, in stream order, of the string-typed
`arguments` fields of its `FunctionCallContent` items (non-string
`arguments` contribute nothing); and if a `FunctionResultContent` then
completes a pending call, the displayed argument string is that
concatenation stripped of surrounding whitespace, modulo the JSON
re-serialisation (`Option.getD` of the abstract round-trip), after which
the pending name is reset to `none` and the buffer to `""`. -/
theorem claim_C2 (jsonRoundtrip : String → Option String) (st0 : TurnState)
    (items : List Item) (fname result : String)
    (hbuf : st0.argument_buffer = "")
    (hnores : ∀ it ∈ items, isFunctionResult it = false)
    (hpend : (runItems jsonRoundtrip st0 items).current_function_name = some fname)
    (hne : fname ≠ "") :
    (runItems jsonRoundtrip st0 items).argument_buffer = streamedArgs items ∧
    processItem jsonRoundtrip (runItems jsonRoundtrip st0 items) (Item.functionResult result) =
      { runItems jsonRoundtrip st0 items with
          function_calls := (runItems jsonRoundtrip st0 items).function_calls ++
            ["Calling function: " ++ fname ++ "(" ++
                ((jsonRoundtrip (pyStrip (streamedArgs items))).getD
                  (pyStrip (streamedArgs items))) ++ ")",
             "\nFunction Result:\n\n" ++ result]
          current_function_name := none
          argument_buffer := "" } := by
  have hb : (runItems jsonRoundtrip st0 items).argument_buffer = streamedArgs items := by
    rw [argument_buffer_runItems jsonRoundtrip items st0 hnores, hbuf, String.empty_append]
  exact ⟨hb, by simp [processItem, hpend, bool_isEmpty_false hne, hb]⟩

/-- Witness for C2 on a concrete stream slice: two string fragments, one
non-string `arguments`, one text chunk, one unrecognised item. -/
theorem claim_C2_witness :
    TurnState.init.argument_buffer = "" ∧
    (∀ it ∈ [Item.functionCall (some "get_availability") (some "ab"),
             Item.functionCall none (some "cd"),
             Item.functionCall none none,
             Item.streamingText (some "x"),
             Item.other], isFunctionResult it = false) ∧
    (runItems (fun s => some s) TurnState.init
        [Item.functionCall (some "get_availability") (some "ab"),
         Item.functionCall none (some "cd"),
         Item.functionCall none none,
         Item.streamingText (some "x"),
         Item.other]).current_function_name = some "get_availability" ∧
    (runItems (fun s => some s) TurnState.init
        [Item.functionCall (some "get_availability") (some "ab"),
         Item.functionCall none (some "cd"),
         Item.functionCall none none,
         Item.streamingText (some "x"),
         Item.other]).argument_buffer = "abcd" ∧
    processItem (fun s => some s)
        (runItems (fun s => some s) TurnState.init
          [Item.functionCall (some "get_availability") (some "ab"),
           Item.functionCall none (some "cd"),
           Item.functionCall none none,
           Item.streamingText (some "x"),
           Item.other])
        (Item.functionResult "RES") =
      { full_response := ["x"],
        function_calls := ["Calling function: get_availability(abcd)",
                           "\nFunction Result:\n\nRES"],
        current_function_name := none,
        argument_buffer := "" } :=
  ⟨rfl, by decide, rfl,
    (claim_C2 (fun s => some s) TurnState.init
        [Item.functionCall (some "get_availability") (some "ab"),
         Item.functionCall none (some "cd"),
         Item.functionCall none none,
         Item.streamingText (some "x"),
         Item.other]
        "get_availability" "RES" rfl (by decide) rfl (by decide)).1,
    (claim_C2 (fun s => some s) TurnState.init
        [Item.functionCall (some "get_availability") (some "ab"),
         Item.functionCall none (some "cd"),
         Item.functionCall none none,
         Item.streamingText (some "x"),
         Item.other]
        "get_availability" "RES" rfl (by decide) rfl (by decide)).2⟩

/-- Claim C3: each processed user input appends exactly one HTML block to
the output area, and inside it the user's message block comes first, then
the collapsible function-calls section exactly when `function_calls` is
non-empty, then the agent block with the response text, which ends with
the horizontal rule `<hr>`. -/
theorem claim_C3 {Th : Type} (jsonRoundtrip : String → Option String)
    (agent_name user_input : String) (responses : List (Response Th))
    (cs : ChatState Th) :
    (process_user_input jsonRoundtrip agent_name user_input responses cs).output_area =
      cs.output_area ++
        [userDiv user_input ++
          (if !(turnState jsonRoundtrip responses).function_calls.isEmpty then
            functionCallsDiv (turnState jsonRoundtrip responses).function_calls
           else "") ++
          agentDiv agent_name (turnState jsonRoundtrip responses).full_response] ∧
    ∃ s : String,
      agentDiv agent_name (turnState jsonRoundtrip responses).full_response = s ++ "<hr>" := by
  constructor
  · rw [process_user_input_eq]
  · refine ⟨"<div style='margin-bottom:20px'>" ++
      "<div style='font-weight:bold'>" ++ agent_name ++ ":</div>" ++
      "<div style='margin-left:20px; white-space:pre-wrap'>" ++
      String.join (turnState jsonRoundtrip responses).full_response ++ "</div></div>", ?_⟩
    have hsplit : ("</div></div>" ++ "<hr>" : String) = "</div></div><hr>" := rfl
    rw [agentDiv, ← hsplit]
    simp [String.append_assoc]

/-- Claim C4: the per-turn accumulators are fresh each turn and discarded
after rendering — the block a turn appends to the output area does not
depend on the pre-existing chat state — while the input box is untouched
and the only state carried forward is `thread`, which ends as the
`thread` of the last streamed response (or the previous thread when the
stream was empty, each response having overwritten it in order). -/
theorem claim_C4 {Th : Type} (jsonRoundtrip : String → Option String)
    (agent_name user_input : String) (responses : List (Response Th))
    (cs : ChatState Th) :
    (process_user_input jsonRoundtrip agent_name user_input responses cs).thread =
      (match responses.getLast? with
       | some r => some r.thread
       | none => cs.thread) ∧
    (process_user_input jsonRoundtrip agent_name user_input responses cs).input_box =
      cs.input_box ∧
    ∀ cs2 : ChatState Th,
      (process_user_input jsonRoundtrip agent_name user_input responses cs).output_area.drop
          cs.output_area.length =
        (process_user_input jsonRoundtrip agent_name user_input responses cs2).output_area.drop
          cs2.output_area.length := by
  refine ⟨?_, ?_, ?_⟩
  · rw [process_user_input_eq]
    exact foldl_thread_getLast responses cs.thread
  · rw [process_user_input_eq]
  · intro cs2
    rw [process_user_input_eq, process_user_input_eq]
    rw [show cs.output_area.length = cs.output_area.length from rfl]
    rw [List.drop_left, List.drop_left]

/-- Claim C5: the plugin exposes exactly the two kernel functions
`get_destinations` and `get_availability`; `get_destinations` returns a
fixed string listing the five destinations, and `get_availability`
returns, for every destination argument, a fixed string listing the
availability of those same five destinations. -/
theorem claim_C5 :
    DestinationsPlugin.kernelFunctionNames = ["get_destinations", "get_availability"] ∧
    DestinationsPlugin.kernelFunctionNames.length = 2 ∧
    (OccursIn "Barcelona, Spain" (DestinationsPlugin.get_destinations ()) ∧
     OccursIn "Paris, France" (DestinationsPlugin.get_destinations ()) ∧
     OccursIn "Berlin, Germany" (DestinationsPlugin.get_destinations ()) ∧
     OccursIn "Tokyo, Japan" (DestinationsPlugin.get_destinations ()) ∧
     OccursIn "New York, USA" (DestinationsPlugin.get_destinations ())) ∧
    ∀ d : String,
      OccursIn "Barcelona - Unavailable" (DestinationsPlugin.get_availability () d) ∧
      OccursIn "Paris - Available" (DestinationsPlugin.get_availability () d) ∧
      OccursIn "Berlin - Available" (DestinationsPlugin.get_availability () d) ∧
      OccursIn "Tokyo - Unavailable" (DestinationsPlugin.get_availability () d) ∧
      OccursIn "New York - Available" (DestinationsPlugin.get_availability () d) := by
  refine ⟨rfl, rfl, ⟨?_, ?_, ?_, ?_, ?_⟩, fun d => ⟨?_, ?_, ?_, ?_, ?_⟩⟩
  · exact ⟨"\n        ",
      "\n        Paris, France\n        Berlin, Germany\n        Tokyo, Japan\n        New York, USA\n        ", rfl⟩
  · exact ⟨"\n        Barcelona, Spain\n        ",
      "\n        Berlin, Germany\n        Tokyo, Japan\n        New York, USA\n        ", rfl⟩
  · exact ⟨"\n        Barcelona, Spain\n        Paris, France\n        ",
      "\n        Tokyo, Japan\n        New York, USA\n        ", rfl⟩
  · exact ⟨"\n        Barcelona, Spain\n        Paris, France\n        Berlin, Germany\n        ",
      "\n        New York, USA\n        ", rfl⟩
  · exact ⟨"\n        Barcelona, Spain\n        Paris, France\n        Berlin, Germany\n        Tokyo, Japan\n        ",
      "\n        ", rfl⟩
  · exact ⟨"\n        ",
      "\n        Paris - Available\n        Berlin - Available\n        Tokyo - Unavailable\n        New York - Available\n        ", rfl⟩
  · exact ⟨"\n        Barcelona - Unavailable\n        ",
      "\n        Berlin - Available\n        Tokyo - Unavailable\n        New York - Available\n        ", rfl⟩
  · exact ⟨"\n        Barcelona - Unavailable\n        Paris - Available\n        ",
      "\n        Tokyo - Unavailable\n        New York - Available\n        ", rfl⟩
  · exact ⟨"\n        Barcelona - Unavailable\n        Paris - Available\n        Berlin - Available\n        ",
      "\n        New York - Available\n        ", rfl⟩
  · exact ⟨"\n        Barcelona - Unavailable\n        Paris - Available\n        Berlin - Available\n        Tokyo - Unavailable\n        ",
      "\n        ", rfl⟩

/-- Claim C6: the agent-response portion of the rendered block is exactly
the concatenation, in stream order, of the `text` of every
`StreamingTextContent` item with non-empty text (empty or missing text is
dropped), and the function-call/result lines live in their own section of
the block, not in the response text. -/
theorem claim_C6 {Th : Type} (jsonRoundtrip : String → Option String)
    (agent_name user_input : String) (responses : List (Response Th))
    (cs : ChatState Th) :
    (turnState jsonRoundtrip responses).full_response =
      textsOf (responses.flatMap Response.items) ∧
    ∃ fcpart : String,
      (process_user_input jsonRoundtrip agent_name user_input responses cs).output_area =
        cs.output_area ++
          [userDiv user_input ++ fcpart ++
            agentDiv agent_name (textsOf (responses.flatMap Response.items))] := by
  refine ⟨full_response_turnState jsonRoundtrip responses, ?_⟩
  refine ⟨if !(turnState jsonRoundtrip responses).function_calls.isEmpty then
      functionCallsDiv (turnState jsonRoundtrip responses).function_calls
    else "", ?_⟩
  rw [process_user_input_eq, full_response_turnState]

/-- Witness for C10 at a whitespace-only submission. -/
theorem claim_C10_witness :
    pyStrip " \t " = "" ∧
    on_submit ({ thread := none, output_area := ["x"], input_box := " \t " } : ChatState Unit) =
      ([], { thread := none, output_area := ["x"], input_box := " \t " }) :=
  ⟨by decide, claim_C10 { thread := none, output_area := ["x"], input_box := " \t " } (by decide)⟩

end SKTool
